import Mathlib

/-!
Shallow embedding of the BIS/ICAR cattle-nutrition calculator (`app.py`).

The calculation core is a deterministic single pass: per-sub-group nutrient
requirements (maintenance tables, milk-production costs, periparturient
factor, temperature water penalty, dry-matter intake), pooled feed supply,
proportional allocation of supply by DMI share, and gap classification.
Quantities are modelled as exact rationals; Python's `round` (ties to even)
is modelled by `pyRound`.
-/

namespace BISNutrition

/-- Python `round` on an exact rational: nearest integer, ties to even. -/
def pyRound (q : ℚ) : ℤ :=
  if q - ⌊q⌋ < 1/2 then ⌊q⌋
  else if 1/2 < q - ⌊q⌋ then ⌊q⌋ + 1
  else if ⌊q⌋ % 2 = 0 then ⌊q⌋ else ⌊q⌋ + 1

/-- Python `round(x, 0)` (result kept as a rational, as the source keeps floats). -/
def pyRound0 (q : ℚ) : ℚ := (pyRound q : ℚ)

/-- Python `round(x, 1)`. -/
def pyRound1 (q : ℚ) : ℚ := (pyRound (10 * q) : ℚ) / 10

/-- Python `round(x, 2)`. -/
def pyRound2 (q : ℚ) : ℚ := (pyRound (100 * q) : ℚ) / 100

/-- The seven fixed physiological groups (keys of `MAINTENANCE_REQ`). -/
inductive Group where
  | calves
  | growingCalves
  | heifers
  | pregnantHeifers
  | dryCows
  | lactatingCows
  | adultBulls
deriving DecidableEq, Repr

/-- A `{DCP_g, TDN_kg, ME_Mcal, Water_L}` row of the reference tables. -/
structure NutrientRow where
  dcp : ℚ
  tdn : ℚ
  me : ℚ
  water : ℚ
deriving DecidableEq, Repr

/-- `MAINTENANCE_REQ` (ICAR 1998 maintenance coefficients per animal). -/
def MAINTENANCE_REQ : Group → NutrientRow
  | .calves => ⟨80, 0.40, 1.5, 10⟩
  | .growingCalves => ⟨270, 2.1, 7.6, 25⟩
  | .heifers => ⟨320, 3.1, 11.2, 35⟩
  | .pregnantHeifers => ⟨350, 4.0, 14.1, 45⟩
  | .dryCows => ⟨300, 3.7, 13.2, 40⟩
  | .lactatingCows => ⟨300, 3.7, 13.2, 60⟩
  | .adultBulls => ⟨450, 4.5, 16.2, 50⟩

/-- `MILK_REQUIREMENTS`: per-kg-milk nutrient costs keyed by milk-fat percent;
`none` models a key absent from the dict. -/
def MILK_REQUIREMENTS (fat : ℚ) : Option NutrientRow :=
  if fat = 3 then some ⟨40, 0.270, 0.97, 4.0⟩
  else if fat = 4 then some ⟨45, 0.315, 1.13, 4.5⟩
  else if fat = 5 then some ⟨51, 0.370, 1.28, 5.0⟩
  else if fat = 6 then some ⟨57, 0.410, 1.36, 5.0⟩
  else if fat = 7 then some ⟨63, 0.460, 1.54, 5.0⟩
  else if fat = 8 then some ⟨69, 0.510, 1.80, 5.0⟩
  else none

/-- `DMI_PERCENT`: dry-matter intake as percent of body weight. -/
def DMI_PERCENT : Group → ℚ
  | .calves => 2.0
  | .growingCalves => 2.5
  | .heifers => 2.5
  | .pregnantHeifers => 2.0
  | .dryCows => 2.0
  | .lactatingCows => 3.0
  | .adultBulls => 2.0

/-- One user-entered animal sub-group (the dicts appended by
`add_animal_to_group`); `milk`, `fat`, `dim` are only read for
Lactating Cows, mirroring the untyped dict fields. -/
structure SubGroup where
  group : Group
  weight : ℚ
  count : ℕ
  milk : ℚ
  fat : ℚ
  dim : ℤ
deriving DecidableEq, Repr

/-- The per-kg-milk cost row actually used: the tabulated row when the fat
percent is a dict key, otherwise the literal 5%-fat fallback constants
(lines 504-508 of the source). -/
def prodCostRow (fat : ℚ) : NutrientRow :=
  match MILK_REQUIREMENTS fat with
  | some r => r
  | none => ⟨51, 0.370, 1.28, 5.0⟩

/-- The per-animal rate of the hot-weather water penalty: 6.5 in the
Lactating Cows branch, 3 in every other branch. -/
def perAnimalWaterRate (g : Group) : ℚ :=
  if g = .lactatingCows then 6.5 else 3

/-- `water_increase`: the temperature water penalty added to `req_water`
when `ambient_temp > 25`, zero otherwise. -/
def waterPenalty (g : Group) (temp : ℚ) (count : ℕ) : ℚ :=
  if temp > 25 then (temp - 25) / 4 * perAnimalWaterRate g * count else 0

/-- `dmi_kg = (DMI_PERCENT[group] / 100) * avg_weight * count`. -/
def dmiKg (g : Group) (w : ℚ) (count : ℕ) : ℚ :=
  DMI_PERCENT g / 100 * w * count

/-- Output of the requirement calculator for one sub-group (the values
`req_DCP`, `req_TDN`, `req_ME`, `req_water`, `dmi_kg` before any display
rounding). -/
structure ReqResult where
  dcp : ℚ
  tdn : ℚ
  me : ℚ
  water : ℚ
  dmi : ℚ
deriving DecidableEq, Repr

/-- The requirement calculator (source lines 485-540): maintenance plus,
for Lactating Cows, milk-production costs and the periparturient factor;
temperature water penalty; DMI from body weight. -/
def computeReq (s : SubGroup) (temp : ℚ) : ReqResult :=
  let base := MAINTENANCE_REQ s.group
  let c : ℚ := s.count
  if s.group = .lactatingCows then
    let mr := prodCostRow s.fat
    let prodDCP := mr.dcp * s.milk
    let prodTDN := mr.tdn * s.milk
    let prodME := mr.me * s.milk
    let prodWater := mr.water * s.milk
    let factor : ℚ := if s.dim ≤ 21 then 1.2 else 1
    { dcp := (base.dcp + prodDCP) * c * factor
      tdn := (base.tdn + prodTDN) * c * factor
      me := (base.me + prodME) * c * factor
      water := (base.water + prodWater) * c + waterPenalty s.group temp s.count
      dmi := dmiKg s.group s.weight s.count }
  else
    { dcp := base.dcp * c
      tdn := base.tdn * c
      me := base.me * c
      water := base.water * c + waterPenalty s.group temp s.count
      dmi := dmiKg s.group s.weight s.count }

/-- One row of the evaluation table (`evaluation_data`, lines 545-554),
holding the display-rounded values exactly as the DataFrame does. -/
structure EvalRow where
  count : ℕ
  weight : ℚ
  dmi : ℚ
  dcpReq : ℚ
  tdnReq : ℚ
  meReq : ℚ
  waterReq : ℚ
deriving DecidableEq, Repr

/-- Builds the evaluation-table row for one sub-group, applying the same
rounding as the source (`DMI` 2 decimals, `DCP Req` 0, `TDN`/`ME Req` 2,
`Water Req` 1). -/
def evalRow (s : SubGroup) (temp : ℚ) : EvalRow :=
  let r := computeReq s temp
  ⟨s.count, s.weight, pyRound2 r.dmi, pyRound0 r.dcp, pyRound2 r.tdn,
   pyRound2 r.me, pyRound1 r.water⟩

/-- The sub-groups the calculation loop actually processes (entries with
`count == 0` are skipped by `continue`). -/
def activeEntries (herd : List SubGroup) : List SubGroup :=
  herd.filter (fun s => s.count ≠ 0)

/-- `total_dmi`: accumulated from the unrounded `dmi_kg` values (line 543). -/
def totalDMI (herd : List SubGroup) : ℚ :=
  ((activeEntries herd).map (fun s => dmiKg s.group s.weight s.count)).sum

/-- `total_water_req`: accumulated from the unrounded `req_water` values. -/
def totalWaterReq (herd : List SubGroup) (temp : ℚ) : ℚ :=
  ((activeEntries herd).map (fun s => (computeReq s temp).water)).sum

/-- A fodder row of the external feed table: `{CP percent, ME Mcal/kg}`. -/
structure FodderRow where
  cp : ℚ
  me : ℚ
deriving DecidableEq, Repr

/-- Pooled supply totals `total_DCP`, `total_TDN`, `total_ME`. -/
structure Supply where
  dcp : ℚ
  tdn : ℚ
  me : ℚ
deriving DecidableEq, Repr

/-- Supply aggregation (lines 452-466): entries with amount > 0 contribute
`(CP/100)*amt*1000*0.70` g DCP, `ME*amt/4.4` kg TDN, `ME*amt` Mcal ME. -/
def totalSupply (sel : List (FodderRow × ℚ)) : Supply :=
  sel.foldl
    (fun acc p =>
      if p.2 > 0 then
        ⟨acc.dcp + p.1.cp / 100 * p.2 * 1000 * 0.70,
         acc.tdn + p.1.me * p.2 / 4.4,
         acc.me + p.1.me * p.2⟩
      else acc)
    ⟨0, 0, 0⟩

/-- The proportional-allocation step (lines 559-561): each row's rounded
DMI over the unrounded `total_dmi`, times the pooled total, rounded by the
nutrient's rounding. The division is evaluated with no guard; a zero
divisor with at least one row is an undefined division (`none`). -/
def allocate (dmis : List ℚ) (tD S : ℚ) (rnd : ℚ → ℚ) : Option (List ℚ) :=
  if tD = 0 ∧ dmis ≠ [] then none
  else some (dmis.map (fun x => rnd (x / tD * S)))

/-- Gap status of one nutrient for one row. -/
inductive GapStatus where
  | deficit
  | adequate
  | excess
deriving DecidableEq, Repr

/-- `gap_percent = ((supplied - required) / required) * 100`. -/
def gapPercent (sup req : ℚ) : ℚ := (sup - req) / req * 100

/-- The classification applied to both the DCP gap and the TDN gap
(lines 570-583): `< -10` Deficit, `> 10` Excess, otherwise Adequate. -/
def classifyGap (gap : ℚ) : GapStatus :=
  if gap < -10 then .deficit
  else if gap > 10 then .excess
  else .adequate

/-- The validation errors raised before calculation (lines 439-449). -/
inductive ValidationError where
  | noAnimals
  | noFodderSelected
  | zeroFodderAmounts
deriving DecidableEq, Repr

/-- The in-memory result of one successful calculation
(`st.session_state.calculation_data`). -/
structure CalcResult where
  rows : List EvalRow
  dcpSup : List ℚ
  tdnSup : List ℚ
  meSup : List ℚ
  recs : List (GapStatus × GapStatus)
  waterReq : ℚ
deriving DecidableEq, Repr

/-- Outcome of pressing Calculate: a validation rejection (`st.stop()`),
an undefined division in the allocation step, or a computed result. -/
inductive Outcome where
  | invalid (e : ValidationError)
  | divisionUndefined
  | ok (r : CalcResult)
deriving DecidableEq, Repr

/-- The recommendation rows: DCP and TDN status per evaluation row, from
the rounded required and allocated supplied values (lines 566-589). -/
def recommendationsOf (rows : List EvalRow) (aD aT : List ℚ) :
    List (GapStatus × GapStatus) :=
  (rows.zip (aD.zip aT)).map
    (fun p =>
      (classifyGap (gapPercent p.2.1 p.1.dcpReq),
       classifyGap (gapPercent p.2.2 p.1.tdnReq)))

/-- The whole calculation triggered by the button (lines 437-606):
validation in source order, supply aggregation, per-row requirements,
proportional allocation, recommendations. -/
def runCalculation (herd : List SubGroup) (sel : List (FodderRow × ℚ))
    (temp : ℚ) : Outcome :=
  if (herd.map (fun s => s.count)).sum = 0 then .invalid .noAnimals
  else if sel = [] then .invalid .noFodderSelected
  else if sel.all (fun p => p.2 = 0) then .invalid .zeroFodderAmounts
  else
    let sup := totalSupply sel
    let rows := (activeEntries herd).map (fun s => evalRow s temp)
    let tD := totalDMI herd
    match allocate (rows.map (fun r => r.dmi)) tD sup.dcp pyRound0,
          allocate (rows.map (fun r => r.dmi)) tD sup.tdn pyRound2,
          allocate (rows.map (fun r => r.dmi)) tD sup.me pyRound2 with
    | some aD, some aT, some aM =>
        .ok ⟨rows, aD, aT, aM, recommendationsOf rows aD aT,
             totalWaterReq herd temp⟩
    | _, _, _ => .divisionUndefined

/-- One user interaction step at the session-state level: a successful
calculation replaces `calculation_data`; a validation stop or a fault
leaves the previous in-memory result unchanged. -/
def appStep (prev : Option CalcResult) (herd : List SubGroup)
    (sel : List (FodderRow × ℚ)) (temp : ℚ) : Option CalcResult :=
  match runCalculation herd sel temp with
  | .ok r => some r
  | _ => prev



/-- C7: for one Lactating Cows sub-group with count 1, weight 450 kg,
milk 10 kg/day, milk fat 5%, days-in-milk 60 and ambient temperature 30 °C,
the requirement calculation returns required DCP exactly 810 g and required
water exactly 118.125 L. -/
theorem scenario_one_lactating_cow :
    (computeReq ⟨.lactatingCows, 450, 1, 10, 5, 60⟩ 30).dcp = 810 ∧
    (computeReq ⟨.lactatingCows, 450, 1, 10, 5, 60⟩ 30).water = 118.125 := by
  norm_num [computeReq, MAINTENANCE_REQ, prodCostRow, MILK_REQUIREMENTS,
    waterPenalty, perAnimalWaterRate, dmiKg, DMI_PERCENT]

/-- C4: a gap percent of exactly -10 or exactly +10 is classified Adequate;
Deficit holds exactly when the gap is strictly below -10 and Excess exactly
when it is strictly above +10.  `classifyGap` is the classification the
recommendation loop applies to both the DCP gap and the TDN gap. -/
theorem gap_boundary_classification :
    classifyGap (-10) = .adequate ∧ classifyGap 10 = .adequate ∧
    (∀ g : ℚ, classifyGap g = .deficit ↔ g < -10) ∧
    (∀ g : ℚ, classifyGap g = .excess ↔ 10 < g) := by
  refine ⟨by decide, by decide, fun g => ?_, fun g => ?_⟩
  · unfold classifyGap
    split_ifs with h1 h2 <;> simp_all
  · unfold classifyGap
    split_ifs with h1 h2 <;> simp_all
    linarith

/-- C3: a Lactating Cows sub-group with days-in-milk ≤ 21 has required DCP,
TDN and ME exactly 1.20 times those of the otherwise-identical sub-group
with days-in-milk > 21, and the identical required water. -/
theorem periparturient_premium (s : SubGroup) (temp : ℚ) (d : ℤ)
    (hg : s.group = .lactatingCows) (hd : s.dim ≤ 21) (hd' : 21 < d) :
    (computeReq s temp).dcp = 1.2 * (computeReq { s with dim := d } temp).dcp ∧
    (computeReq s temp).tdn = 1.2 * (computeReq { s with dim := d } temp).tdn ∧
    (computeReq s temp).me = 1.2 * (computeReq { s with dim := d } temp).me ∧
    (computeReq s temp).water = (computeReq { s with dim := d } temp).water := by
  obtain ⟨g, w, c, m, f, dm⟩ := s
  simp only at hg hd
  subst hg
  simp [computeReq, hd, not_le.mpr hd']
  refine ⟨by ring, by ring, by ring⟩

/-- C6: for a milk-fat percent that is none of the six tabulated values
3, 4, 5, 6, 7, 8, the per-kg-milk production-cost row used is exactly the
5%-fat row of `MILK_REQUIREMENTS` (DCP 51 g, TDN 0.370 kg, ME 1.28 Mcal,
water 5.0 L per kg milk). -/
theorem untabulated_fat_uses_five_percent_row (fat : ℚ) (h3 : fat ≠ 3)
    (h4 : fat ≠ 4) (h5 : fat ≠ 5) (h6 : fat ≠ 6) (h7 : fat ≠ 7) (h8 : fat ≠ 8) :
    prodCostRow fat = ⟨51, 0.370, 1.28, 5.0⟩ ∧
    MILK_REQUIREMENTS 5 = some ⟨51, 0.370, 1.28, 5.0⟩ := by
  constructor
  · unfold prodCostRow MILK_REQUIREMENTS
    rw [if_neg h3, if_neg h4, if_neg h5, if_neg h6, if_neg h7, if_neg h8]
  · norm_num [MILK_REQUIREMENTS]

/-- Witness for C6 at the untabulated fat percent 4.5. -/
theorem untabulated_fat_witness :
    prodCostRow 4.5 = ⟨51, 0.370, 1.28, 5.0⟩ ∧
    MILK_REQUIREMENTS 5 = some ⟨51, 0.370, 1.28, 5.0⟩ :=
  untabulated_fat_uses_five_percent_row 4.5 (by norm_num) (by norm_num)
    (by norm_num) (by norm_num) (by norm_num) (by norm_num)

/-- C10: for a sub-group of any group other than Lactating Cows, the
computed required DCP, TDN, ME and water do not depend on `avg_weight`:
changing only the weight leaves all four unchanged, while the weight flows
into `dmi_kg` alone. -/
theorem weight_noninterference (s : SubGroup) (w temp : ℚ)
    (hg : s.group ≠ .lactatingCows) :
    (computeReq { s with weight := w } temp).dcp = (computeReq s temp).dcp ∧
    (computeReq { s with weight := w } temp).tdn = (computeReq s temp).tdn ∧
    (computeReq { s with weight := w } temp).me = (computeReq s temp).me ∧
    (computeReq { s with weight := w } temp).water = (computeReq s temp).water ∧
    (computeReq { s with weight := w } temp).dmi = dmiKg s.group w s.count := by
  obtain ⟨g, w0, c, m, f, dm⟩ := s
  simp only at hg
  simp [computeReq, if_neg hg]

/-- C9: for every sub-group with count > 0 and avg_weight > 0, the computed
`dmi_kg` (the value accumulated into the total-DMI divisor of the
allocation step) is strictly positive, since every group's DMI percentage
is strictly positive. -/
theorem dmi_positive (g : Group) (w : ℚ) (c : ℕ) (hc : 0 < c) (hw : 0 < w) :
    0 < dmiKg g w c := by
  have h1 : 0 < DMI_PERCENT g := by cases g <;> norm_num [DMI_PERCENT]
  have hc' : (0 : ℚ) < c := by exact_mod_cast hc
  exact mul_pos (mul_pos (div_pos h1 (by norm_num)) hw) hc'

/-- Witness for C9: a single 30 kg calf. -/
theorem dmi_positive_witness : 0 < dmiKg .calves 30 1 :=
  dmi_positive .calves 30 1 (by decide) (by norm_num)

/-- Witness for C3: day-10 versus day-60 lactating cows, otherwise equal. -/
theorem periparturient_premium_witness :
    (computeReq ⟨.lactatingCows, 450, 1, 10, 5, 10⟩ 30).dcp =
      1.2 * (computeReq ⟨.lactatingCows, 450, 1, 10, 5, 60⟩ 30).dcp ∧
    (computeReq ⟨.lactatingCows, 450, 1, 10, 5, 10⟩ 30).tdn =
      1.2 * (computeReq ⟨.lactatingCows, 450, 1, 10, 5, 60⟩ 30).tdn ∧
    (computeReq ⟨.lactatingCows, 450, 1, 10, 5, 10⟩ 30).me =
      1.2 * (computeReq ⟨.lactatingCows, 450, 1, 10, 5, 60⟩ 30).me ∧
    (computeReq ⟨.lactatingCows, 450, 1, 10, 5, 10⟩ 30).water =
      1 * (computeReq ⟨.lactatingCows, 450, 1, 10, 5, 60⟩ 30).water := by
  have h := periparturient_premium ⟨.lactatingCows, 450, 1, 10, 5, 10⟩ 30 60
    rfl (by decide) (by decide)
  simpa using h

/-- Witness for C10: dry cows at 400 kg versus 500 kg. -/
theorem weight_noninterference_witness :
    (computeReq ⟨.dryCows, 500, 2, 0, 0, 0⟩ 30).dcp =
      (computeReq ⟨.dryCows, 400, 2, 0, 0, 0⟩ 30).dcp ∧
    (computeReq ⟨.dryCows, 500, 2, 0, 0, 0⟩ 30).tdn =
      (computeReq ⟨.dryCows, 400, 2, 0, 0, 0⟩ 30).tdn ∧
    (computeReq ⟨.dryCows, 500, 2, 0, 0, 0⟩ 30).me =
      (computeReq ⟨.dryCows, 400, 2, 0, 0, 0⟩ 30).me ∧
    (computeReq ⟨.dryCows, 500, 2, 0, 0, 0⟩ 30).water =
      (computeReq ⟨.dryCows, 400, 2, 0, 0, 0⟩ 30).water ∧
    (computeReq ⟨.dryCows, 500, 2, 0, 0, 0⟩ 30).dmi = dmiKg .dryCows 500 2 :=
  weight_noninterference ⟨.dryCows, 400, 2, 0, 0, 0⟩ 500 30 (by decide)

/-- C5: the temperature water penalty is exactly zero at or below 25 °C;
above 25 °C it equals `((temp - 25) / 4) * rate * count` with rate 6.5 for
Lactating Cows and 3 otherwise; and the computed water requirement is
strictly increasing in temperature above 25 °C. -/
theorem water_penalty_spec (s : SubGroup) (t t1 t2 : ℚ) (hc : s.count ≠ 0) :
    (t ≤ 25 → waterPenalty s.group t s.count = 0) ∧
    (25 < t → waterPenalty s.group t s.count =
      (t - 25) / 4 * (if s.group = .lactatingCows then 6.5 else 3) * s.count) ∧
    (25 < t1 → t1 < t2 →
      (computeReq s t1).water < (computeReq s t2).water) := by
  obtain ⟨g, w, c, m, f, dm⟩ := s
  dsimp only at hc ⊢
  have hc1 : (1 : ℚ) ≤ (c : ℚ) := by exact_mod_cast Nat.one_le_iff_ne_zero.mpr hc
  have hcq : (0 : ℚ) < (c : ℚ) := by linarith
  have hr : 0 < perAnimalWaterRate g := by
    unfold perAnimalWaterRate; split_ifs <;> norm_num
  refine ⟨fun h => ?_, fun h => ?_, fun h1 h2 => ?_⟩
  · simp [waterPenalty, not_lt.mpr h]
  · simp [waterPenalty, h, perAnimalWaterRate]
  · have hmono : waterPenalty g t1 c < waterPenalty g t2 c := by
      unfold waterPenalty
      rw [if_pos h1, if_pos (lt_trans h1 h2)]
      have hq : (t1 - 25) / 4 < (t2 - 25) / 4 := by linarith
      exact mul_lt_mul_of_pos_right (mul_lt_mul_of_pos_right hq hr) hcq
    by_cases hg : g = .lactatingCows
    · simp only [computeReq, if_pos hg]
      linarith
    · simp only [computeReq, if_neg hg]
      linarith

/-- Witness for C5: a lactating pair at 20/28/30 °C and heifers at 30 °C. -/
theorem water_penalty_witness :
    waterPenalty .lactatingCows 20 2 = 0 ∧
    waterPenalty .heifers 30 2 =
      (30 - 25) / 4 * (if Group.heifers = Group.lactatingCows then 6.5 else 3) * 2 ∧
    (computeReq ⟨.lactatingCows, 450, 2, 10, 5, 60⟩ 28).water <
      (computeReq ⟨.lactatingCows, 450, 2, 10, 5, 60⟩ 30).water := by
  have h1 := water_penalty_spec ⟨.lactatingCows, 450, 2, 10, 5, 60⟩ 20 28 30 (by decide)
  have h2 := water_penalty_spec ⟨.heifers, 300, 2, 0, 0, 0⟩ 30 28 30 (by decide)
  exact ⟨h1.1 (by norm_num), h2.2.1 (by norm_num), h1.2.2 (by norm_num) (by norm_num)⟩

/-- C8: with at least one animal, at least one selected fodder, and every
selected fodder amount zero, the calculation stops with the
zero-fodder-amounts validation error and the in-memory result is
unchanged. -/
theorem zero_fodder_amounts_rejected (prev : Option CalcResult)
    (herd : List SubGroup) (sel : List (FodderRow × ℚ)) (temp : ℚ)
    (h1 : (herd.map (fun s => s.count)).sum ≠ 0) (h2 : sel ≠ [])
    (h3 : ∀ p ∈ sel, p.2 = 0) :
    runCalculation herd sel temp = .invalid .zeroFodderAmounts ∧
    appStep prev herd sel temp = prev := by
  have hall : sel.all (fun p => decide (p.2 = 0)) = true := by
    rw [List.all_eq_true]
    intro p hp
    exact decide_eq_true (h3 p hp)
  have hrun : runCalculation herd sel temp = .invalid .zeroFodderAmounts := by
    unfold runCalculation
    rw [if_neg h1, if_neg h2, if_pos hall]
  exact ⟨hrun, by unfold appStep; rw [hrun]⟩

/-- Witness for C8: one calf, one selected fodder with amount 0. -/
theorem zero_fodder_witness :
    runCalculation [⟨.calves, 30, 1, 0, 0, 0⟩] [(⟨10, 2⟩, 0)] 30 =
      .invalid .zeroFodderAmounts ∧
    appStep none [⟨.calves, 30, 1, 0, 0, 0⟩] [(⟨10, 2⟩, 0)] 30 = none :=
  zero_fodder_amounts_rejected none [⟨.calves, 30, 1, 0, 0, 0⟩] [(⟨10, 2⟩, 0)] 30
    (by decide) (by simp) (by simp)

/-- C1: the allocation step is not guarded against a zero total DMI.  With
validation passed (one animal of weight 0, a positive fodder amount) the
total DMI is 0 and the allocation evaluates `x / total_dmi` with a zero
divisor: the run ends in `divisionUndefined` instead of the zero-supply
allocation the claim describes. -/
theorem zero_total_dmi_division_not_guarded :
    runCalculation [⟨.calves, 0, 1, 0, 0, 0⟩] [(⟨10, 2⟩, 1)] 30 =
      .divisionUndefined := by
  norm_num [runCalculation, activeEntries, totalDMI, dmiKg, DMI_PERCENT,
    evalRow, computeReq, MAINTENANCE_REQ, waterPenalty, perAnimalWaterRate,
    totalSupply, allocate, pyRound2, pyRound]

/-- The DMI component of the requirement calculator is `dmi_kg` in every
branch. -/
theorem computeReq_dmi (s : SubGroup) (temp : ℚ) :
    (computeReq s temp).dmi = dmiKg s.group s.weight s.count := by
  unfold computeReq
  split_ifs <;> rfl

/-- Rounding to the nearest integer moves a value by at most 1/2. -/
theorem abs_pyRound_sub_le (q : ℚ) : |(pyRound q : ℚ) - q| ≤ 1/2 := by
  have hfl : (⌊q⌋ : ℚ) ≤ q := Int.floor_le q
  have hfu : q < ⌊q⌋ + 1 := Int.lt_floor_add_one q
  unfold pyRound
  split_ifs with h1 h2 h3
  · rw [abs_le]; exact ⟨by linarith, by linarith⟩
  · rw [not_lt] at h1
    rw [abs_le]; push_cast; exact ⟨by linarith, by linarith⟩
  · rw [not_lt] at h1 h2
    rw [abs_le]; exact ⟨by linarith, by linarith⟩
  · rw [not_lt] at h1 h2
    rw [abs_le]; push_cast; exact ⟨by linarith, by linarith⟩

/-- `round(x, 0)` moves a value by at most 1/2. -/
theorem abs_pyRound0_sub_le (q : ℚ) : |pyRound0 q - q| ≤ 1/2 :=
  abs_pyRound_sub_le q

/-- `round(x, 2)` moves a value by at most 0.005. -/
theorem abs_pyRound2_sub_le (q : ℚ) : |pyRound2 q - q| ≤ 1/200 := by
  have h := abs_pyRound_sub_le (100 * q)
  have heq : pyRound2 q - q = ((pyRound (100 * q) : ℚ) - 100 * q) / 100 := by
    unfold pyRound2; ring
  rw [heq, abs_div]
  rw [show |(100 : ℚ)| = 100 by norm_num]
  linarith

/-- Rounding each list entry perturbs the sum by at most the length times
the per-entry bound. -/
theorem sum_map_sub_sum_abs_le (rnd : ℚ → ℚ) (b : ℚ)
    (hb : ∀ q, |rnd q - q| ≤ b) (l : List ℚ) :
    |(l.map rnd).sum - l.sum| ≤ l.length * b := by
  induction l with
  | nil => simp
  | cons a l ih =>
    simp only [List.map_cons, List.sum_cons, List.length_cons]
    push_cast
    have hsplit : rnd a + (l.map rnd).sum - (a + l.sum) =
        (rnd a - a) + ((l.map rnd).sum - l.sum) := by ring
    rw [hsplit]
    calc |(rnd a - a) + ((l.map rnd).sum - l.sum)|
        ≤ |rnd a - a| + |(l.map rnd).sum - l.sum| := abs_add _ _
      _ ≤ b + l.length * b := add_le_add (hb a) ih
      _ = (l.length + 1) * b := by ring

/-- Sum of proportional shares factors through the sum of the weights. -/
theorem sum_map_share (l : List ℚ) (t S : ℚ) :
    (l.map (fun x => x / t * S)).sum = l.sum / t * S := by
  induction l with
  | nil => simp
  | cons a l ih =>
    simp only [List.map_cons, List.sum_cons, ih]
    ring

/-- When the share weights sum exactly to the divisor, the allocation
succeeds and its sum is within `length * b` of the pooled total. -/
theorem alloc_sum_close (dmis : List ℚ) (tD S : ℚ) (rnd : ℚ → ℚ) (b : ℚ)
    (hb : ∀ q, |rnd q - q| ≤ b) (h0 : tD ≠ 0) (hsum : dmis.sum = tD) :
    ∃ a, allocate dmis tD S rnd = some a ∧ |a.sum - S| ≤ dmis.length * b := by
  refine ⟨dmis.map (fun x => rnd (x / tD * S)), ?_, ?_⟩
  · unfold allocate
    rw [if_neg (fun h => h0 h.1)]
  · have h1 : dmis.map (fun x => rnd (x / tD * S)) =
        (dmis.map (fun x => x / tD * S)).map rnd := by
      rw [List.map_map]; rfl
    rw [h1]
    have h2 : (dmis.map (fun x => x / tD * S)).sum = S := by
      rw [sum_map_share, hsum, div_self h0, one_mul]
    have h3 := sum_map_sub_sum_abs_le rnd b hb (dmis.map (fun x => x / tD * S))
    rw [h2] at h3
    simpa using h3

/-- C2 (amended): for a herd with nonzero total DMI in which each active
sub-group's `dmi_kg` is unchanged by the table's 2-decimal rounding, the
allocation succeeds for DCP, TDN and ME and each allocated list sums to the
pooled total within `rows * (grain / 2)` (grain 1 g for DCP, 0.01 for TDN
and ME) — the per-share rounding tolerance.  The original claim, stated for
every herd, fails because the allocation divides the rounded row DMI by the
unrounded total DMI (see the counterexample). -/
theorem allocation_conserves_supply (herd : List SubGroup) (temp : ℚ)
    (sup : Supply) (h0 : totalDMI herd ≠ 0)
    (hex : ∀ s ∈ activeEntries herd,
      pyRound2 (dmiKg s.group s.weight s.count) = dmiKg s.group s.weight s.count) :
    ∃ aD aT aM : List ℚ,
      allocate (((activeEntries herd).map (fun s => evalRow s temp)).map
          (fun r => r.dmi)) (totalDMI herd) sup.dcp pyRound0 = some aD ∧
      allocate (((activeEntries herd).map (fun s => evalRow s temp)).map
          (fun r => r.dmi)) (totalDMI herd) sup.tdn pyRound2 = some aT ∧
      allocate (((activeEntries herd).map (fun s => evalRow s temp)).map
          (fun r => r.dmi)) (totalDMI herd) sup.me pyRound2 = some aM ∧
      |aD.sum - sup.dcp| ≤ (activeEntries herd).length * (1/2) ∧
      |aT.sum - sup.tdn| ≤ (activeEntries herd).length * (1/200) ∧
      |aM.sum - sup.me| ≤ (activeEntries herd).length * (1/200) := by
  have hdmis : ((activeEntries herd).map (fun s => evalRow s temp)).map
      (fun r => r.dmi) =
      (activeEntries herd).map (fun s => dmiKg s.group s.weight s.count) := by
    rw [List.map_map]
    apply List.map_congr_left
    intro s hs
    show (evalRow s temp).dmi = dmiKg s.group s.weight s.count
    rw [evalRow]
    show pyRound2 (computeReq s temp).dmi = _
    rw [computeReq_dmi, hex s hs]
  have hlen : ((activeEntries herd).map
      (fun s => dmiKg s.group s.weight s.count)).length =
      (activeEntries herd).length := List.length_map _ _
  have hsum : ((activeEntries herd).map
      (fun s => dmiKg s.group s.weight s.count)).sum = totalDMI herd := rfl
  obtain ⟨aD, hD, hDb⟩ := alloc_sum_close _ _ sup.dcp pyRound0 (1/2)
    abs_pyRound0_sub_le h0 hsum
  obtain ⟨aT, hT, hTb⟩ := alloc_sum_close _ _ sup.tdn pyRound2 (1/200)
    abs_pyRound2_sub_le h0 hsum
  obtain ⟨aM, hM, hMb⟩ := alloc_sum_close _ _ sup.me pyRound2 (1/200)
    abs_pyRound2_sub_le h0 hsum
  rw [hlen] at hDb hTb hMb
  exact ⟨aD, aT, aM, by rw [hdmis]; exact hD, by rw [hdmis]; exact hT,
    by rw [hdmis]; exact hM, hDb, hTb, hMb⟩

/-- Evaluation rule for `pyRound` below the tie. -/
theorem pyRound_eq_of_lt (q : ℚ) (n : ℤ) (h1 : ⌊q⌋ = n)
    (h2 : q - n < 1/2) : pyRound q = n := by
  unfold pyRound
  rw [h1, if_pos h2]

/-- Evaluation rule for `pyRound` above the tie. -/
theorem pyRound_eq_of_gt (q : ℚ) (n : ℤ) (h1 : ⌊q⌋ = n)
    (h2 : 1/2 < q - n) : pyRound q = n + 1 := by
  unfold pyRound
  rw [h1, if_neg (by linarith), if_pos h2]

/-- Evaluation rule for `pyRound` at a tie with odd floor. -/
theorem pyRound_tie_of_odd (q : ℚ) (n : ℤ) (h1 : ⌊q⌋ = n) (h2 : q - n = 1/2)
    (h3 : ¬ n % 2 = 0) : pyRound q = n + 1 := by
  unfold pyRound
  rw [h1, if_neg (by linarith), if_neg (by linarith), if_neg h3]

/-- Counterexample to C2 as stated: one Growing Calves sub-group of weight
51 kg and count 1 has `dmi_kg = 1.275`, rounded to 1.28 in the table; with
a pooled DCP supply of 700 g the single allocated share is 703 g, which
misses the pooled total by 3 g — far beyond the 0.5 g per-share rounding
tolerance. -/
theorem allocation_counterexample :
    (totalSupply [(⟨50, 2⟩, 2)]).dcp = 700 ∧
    0 < totalDMI [⟨.growingCalves, 51, 1, 0, 0, 0⟩] ∧
    allocate (((activeEntries [⟨.growingCalves, 51, 1, 0, 0, 0⟩]).map
        (fun s => evalRow s 30)).map (fun r => r.dmi))
      (totalDMI [⟨.growingCalves, 51, 1, 0, 0, 0⟩]) 700 pyRound0 =
        some [703] ∧
    ¬ (|(703 : ℚ) - 700| ≤
        ((activeEntries [⟨.growingCalves, 51, 1, 0, 0, 0⟩]).length : ℚ) * (1/2)) := by
  have hactive : activeEntries [(⟨.growingCalves, 51, 1, 0, 0, 0⟩ : SubGroup)] =
      [⟨.growingCalves, 51, 1, 0, 0, 0⟩] := rfl
  have hdmi : dmiKg .growingCalves 51 1 = 51/40 := by
    norm_num [dmiKg, DMI_PERCENT]
  have hfl1 : ⌊(255/2 : ℚ)⌋ = 127 := by
    rw [Int.floor_eq_iff]
    norm_num
  have hp1 : pyRound2 (51/40) = 32/25 := by
    unfold pyRound2
    rw [show (100 * (51/40 : ℚ)) = 255/2 by norm_num,
        pyRound_tie_of_odd (255/2) 127 hfl1 (by norm_num) (by decide)]
    norm_num
  have htD : totalDMI [(⟨.growingCalves, 51, 1, 0, 0, 0⟩ : SubGroup)] = 51/40 := by
    unfold totalDMI
    rw [hactive]
    simp [hdmi]
  have hrow : ((activeEntries [(⟨.growingCalves, 51, 1, 0, 0, 0⟩ : SubGroup)]).map
      (fun s => evalRow s 30)).map (fun r => r.dmi) = [32/25] := by
    rw [hactive]
    simp only [List.map_cons, List.map_nil]
    rw [show (evalRow ⟨.growingCalves, 51, 1, 0, 0, 0⟩ 30).dmi =
        pyRound2 (computeReq ⟨.growingCalves, 51, 1, 0, 0, 0⟩ 30).dmi from rfl,
      computeReq_dmi, hdmi, hp1]
  have hfl2 : ⌊(35840/51 : ℚ)⌋ = 702 := by
    rw [Int.floor_eq_iff]
    norm_num
  have hp2 : pyRound0 ((32/25 : ℚ) / (51/40) * 700) = 703 := by
    unfold pyRound0
    rw [show ((32/25 : ℚ) / (51/40) * 700) = 35840/51 by norm_num,
        pyRound_eq_of_gt (35840/51) 702 hfl2 (by norm_num)]
    norm_num
  refine ⟨by norm_num [totalSupply], by rw [htD]; norm_num, ?_, ?_⟩
  · rw [hrow, htD]
    unfold allocate
    rw [if_neg (by norm_num)]
    simp only [List.map_cons, List.map_nil, hp2]
  · rw [hactive]
    norm_num

/-- Witness for C2 (amended): two calves of 100 kg, whose DMI of 4 kg is
exact at two decimals. -/
theorem allocation_conserves_witness :
    ∃ aD aT aM : List ℚ,
      allocate (((activeEntries [⟨.calves, 100, 2, 0, 0, 0⟩]).map
          (fun s => evalRow s 30)).map (fun r => r.dmi))
        (totalDMI [⟨.calves, 100, 2, 0, 0, 0⟩]) ((700 : ℚ)) pyRound0 = some aD ∧
      allocate (((activeEntries [⟨.calves, 100, 2, 0, 0, 0⟩]).map
          (fun s => evalRow s 30)).map (fun r => r.dmi))
        (totalDMI [⟨.calves, 100, 2, 0, 0, 0⟩]) ((10 : ℚ)) pyRound2 = some aT ∧
      allocate (((activeEntries [⟨.calves, 100, 2, 0, 0, 0⟩]).map
          (fun s => evalRow s 30)).map (fun r => r.dmi))
        (totalDMI [⟨.calves, 100, 2, 0, 0, 0⟩]) ((44 : ℚ)) pyRound2 = some aM ∧
      |aD.sum - 700| ≤ (activeEntries [⟨.calves, 100, 2, 0, 0, 0⟩]).length * (1/2) ∧
      |aT.sum - 10| ≤ (activeEntries [⟨.calves, 100, 2, 0, 0, 0⟩]).length * (1/200) ∧
      |aM.sum - 44| ≤ (activeEntries [⟨.calves, 100, 2, 0, 0, 0⟩]).length * (1/200) :=
  allocation_conserves_supply [⟨.calves, 100, 2, 0, 0, 0⟩] 30 ⟨700, 10, 44⟩
    (by norm_num [totalDMI, activeEntries, dmiKg, DMI_PERCENT])
    (by
      intro s hs
      have hs' : s = ⟨.calves, 100, 2, 0, 0, 0⟩ := by
        simpa [activeEntries] using hs
      subst hs'
      have h4 : dmiKg Group.calves 100 2 = 4 := by
        norm_num [dmiKg, DMI_PERCENT]
      rw [h4]
      unfold pyRound2
      rw [show (100 * (4 : ℚ)) = 400 by norm_num,
          pyRound_eq_of_lt 400 400 (by norm_num) (by norm_num)]
      norm_num)

end BISNutrition